import Mathlib

/-!
Shallow embedding of the scan-orchestration backend
(`src/backend/models.py`, `src/backend/main.py`).

Machine state (the relational store) is a `DB` record of lists of rows;
each SQLAlchemy session/transaction becomes a pure state transformation.
Wall-clock times are abstract `Nat` values passed in by the caller.
Network and randomness effects of a probe are captured by a `ProbeEnv`
value describing what the environment did during that probe's execution.
-/

namespace PenTest

/-- models.TestStatusEnum -/
inductive TestStatusEnum where
  | PENDING
  | IN_PROGRESS
  | COMPLETED
  | FAILED
  | ERROR
deriving DecidableEq, Repr

/-- models.TestResultEnum -/
inductive TestResultEnum where
  | NOT_RUN
  | PASSED
  | VULNERABLE
  | INFO
deriving DecidableEq, Repr

/-- models.Website row. -/
structure Website where
  id : Nat
  url : String
  created_at : Nat
  last_scan_at : Option Nat
deriving DecidableEq, Repr

/-- models.TestDefinition row. -/
structure TestDefinition where
  id : Nat
  name : String
  description : String
deriving DecidableEq, Repr

/-- models.Scan row. -/
structure Scan where
  id : Nat
  website_id : Nat
  status : TestStatusEnum
  created_at : Nat
  completed_at : Option Nat
deriving DecidableEq, Repr

/-- models.ScanResult row. -/
structure ScanResult where
  id : Nat
  scan_id : Nat
  test_definition_id : Nat
  status : TestStatusEnum
  result : TestResultEnum
  summary : Option String
  details : Option String
  recommendations : Option String
  started_at : Option Nat
  completed_at : Option Nat
deriving DecidableEq, Repr

/-- The relational store as a record of tables. -/
structure DB where
  websites : List Website
  test_definitions : List TestDefinition
  scans : List Scan
  scan_results : List ScanResult
deriving DecidableEq, Repr

/-- Autoincrement primary key: one more than the largest id in use. -/
def nextId (l : List Nat) : Nat := l.foldr (fun a b => max a b) 0 + 1

/-- Update the scan row with the given id (no-op when absent). -/
def updateScan (db : DB) (scan_id : Nat) (f : Scan → Scan) : DB :=
  { db with scans := db.scans.map (fun s => if s.id = scan_id then f s else s) }

/-- Update the scan-result row with the given id (no-op when absent). -/
def updateScanResult (db : DB) (rid : Nat) (f : ScanResult → ScanResult) : DB :=
  { db with scan_results := db.scan_results.map (fun r => if r.id = rid then f r else r) }

/-- Fetch the scan row with the given id. -/
def getScan (db : DB) (scan_id : Nat) : Option Scan :=
  db.scans.find? (fun s => decide (s.id = scan_id))

/-- Fetch the scan-result row with the given id. -/
def getScanResult (db : DB) (rid : Nat) : Option ScanResult :=
  db.scan_results.find? (fun r => decide (r.id = rid))

/-- The scan-result rows belonging to one scan. -/
def resultsOfScan (db : DB) (scan_id : Nat) : List ScanResult :=
  db.scan_results.filter (fun r => decide (r.scan_id = scan_id))

/-! ## The HTTPS-enforcement probe (main.py lines 170-218) -/

/-- What `requests.get(url, timeout=10, allow_redirects=True, verify=True)`
did in the environment: either it returned a response (HTTP status code and
final URL after redirects), or it raised one of the exception classes the
probe distinguishes. `requestError` covers every other
`requests.exceptions.RequestException` (including `HTTPError` raised by
`raise_for_status()`, which is a direct subclass of `RequestException` and
is not caught by the `SSLError`/`Timeout`/`ConnectionError` handlers). -/
inductive HttpOutcome where
  | success (status_code : Nat) (final_url : String)
  | sslError (msg : String)
  | timeoutErr
  | connectionError (msg : String)
  | requestError (msg : String)
deriving DecidableEq, Repr

/-- `response.raise_for_status()` raises `HTTPError` exactly for 4xx/5xx. -/
def raisesForStatus (code : Nat) : Bool := decide (400 ≤ code ∧ code < 600)

/-- Characters of the scheme: everything before the first colon
(none when the URL has no colon). -/
def schemeChars (acc : List Char) : List Char → List Char
  | [] => []
  | c :: rest => if c = ':' then acc.reverse else schemeChars (c :: acc) rest

/-- `urlparse(final_url).scheme` for the URL shapes `requests` produces:
the part before the first colon. -/
def urlScheme (u : String) : String :=
  String.mk (schemeChars [] u.data)

/-- The values `run_single_test` accumulates during step 2 and writes out
in step 3: `outcome`, `final_status`, and the narrative fields. -/
structure FinalFields where
  outcome : TestResultEnum
  final_status : TestStatusEnum
  summary : String
  details : Option String
  recommendations : Option String
deriving DecidableEq, Repr

/-- The `"Cryptography and SSL/TLS Testing"` branch of `run_single_test`
(main.py lines 170-218): the GET with its `try/except` ladder. -/
def https_check (url : String) (r : HttpOutcome) : FinalFields :=
  match r with
  | .success code final_url =>
    if raisesForStatus code then
      -- HTTPError from raise_for_status lands in the RequestException handler
      { outcome := .INFO, final_status := .COMPLETED
        summary := "Request Error."
        details := some ("An error occurred during the request: HTTPError for url " ++ final_url)
        recommendations := some "Check the URL for correctness and ensure the website is accessible. Review server logs if possible." }
    else if urlScheme final_url = "https" then
      { outcome := .PASSED, final_status := .COMPLETED
        summary := "Website uses HTTPS."
        details := some ("The final URL (" ++ final_url ++ ") is served over HTTPS.")
        recommendations := some "Ensure HTTPS is enforced (e.g., via HSTS) and uses modern TLS protocols/ciphers (requires deeper scan)." }
    else
      { outcome := .VULNERABLE, final_status := .COMPLETED
        summary := "Website does not enforce HTTPS."
        details := some ("The final URL (" ++ final_url ++ ") is served over HTTP, which is insecure.")
        recommendations := some "Migrate the website to HTTPS and configure redirection from HTTP to HTTPS. Implement HSTS." }
  | .sslError msg =>
      { outcome := .VULNERABLE, final_status := .COMPLETED
        summary := "SSL/TLS Certificate Error."
        details := some ("An SSL error occurred: " ++ msg ++ ". This could indicate an invalid, expired, self-signed, or misconfigured certificate.")
        recommendations := some "Review the SSL/TLS certificate configuration on the server. Ensure it's valid, trusted, covers the correct domain(s), and is correctly installed with the full chain." }
  | .timeoutErr =>
      { outcome := .INFO, final_status := .COMPLETED
        summary := "Request Timed Out."
        details := some ("The request to " ++ url ++ " timed out after 10 seconds.")
        recommendations := some "Check server availability and network connectivity. The server might be slow, unresponsive, or firewalled." }
  | .connectionError msg =>
      { outcome := .INFO, final_status := .COMPLETED
        summary := "Connection Error."
        details := some ("Could not connect to " ++ url ++ ". Error: " ++ msg)
        recommendations := some "Verify the domain name resolves correctly and the server is reachable on the expected port (80/443)." }
  | .requestError msg =>
      { outcome := .INFO, final_status := .COMPLETED
        summary := "Request Error."
        details := some ("An error occurred during the request: " ++ msg)
        recommendations := some "Check the URL for correctness and ensure the website is accessible. Review server logs if possible." }

/-- `random.choice([PASSED, VULNERABLE, INFO])`, with the random draw
supplied by the environment as a seed. -/
def randomChoice3 (seed : Nat) : TestResultEnum :=
  match seed % 3 with
  | 0 => .PASSED
  | 1 => .VULNERABLE
  | _ => .INFO

/-- The simulated-test branch of `run_single_test` (main.py lines 228-236). -/
def simulated_run (test_name url : String) (seed : Nat) : FinalFields :=
  { outcome := randomChoice3 seed, final_status := .COMPLETED
    summary := test_name ++ " completed (simulated)."
    details := some ("Simulated details for " ++ test_name ++ " on " ++ url ++ ".")
    recommendations := some ("Simulated recommendations for " ++ test_name ++ ".") }

/-- Everything the environment decides during one probe unit's step 2:
the network outcome seen by the real probe, the random draw used by a
simulated probe, and whether the test logic raised an unexpected
exception (`some msg`) escaping to the outer handler at main.py line 238. -/
structure ProbeEnv where
  httpOutcome : HttpOutcome
  simSeed : Nat
  raises : Option String
deriving Repr

/-- Step 2 of `run_single_test` (main.py lines 162-244): run the test
logic under its outer `try/except`, producing the values step 3 writes. -/
def step2 (test_name url : String) (env : ProbeEnv) : FinalFields :=
  match env.raises with
  | some e =>
      { outcome := .NOT_RUN, final_status := .ERROR
        summary := "An unexpected error occurred during the " ++ test_name ++ " test execution."
        details := some ("Error details: " ++ e)
        recommendations := none }
  | none =>
      if test_name = "Cryptography and SSL/TLS Testing" then
        https_check url env.httpOutcome
      else
        simulated_run test_name url env.simSeed

/-- Step 1 of `run_single_test`: mark the row IN_PROGRESS and stamp
`started_at` (main.py lines 154-155). -/
def tracker_begin (sr : ScanResult) (now : Nat) : ScanResult :=
  { sr with status := .IN_PROGRESS, started_at := some now }

/-- Step 3 of `run_single_test`: write the final status, outcome and
narrative fields and stamp `completed_at` (main.py lines 256-262). -/
def tracker_finish (sr : ScanResult) (f : FinalFields) (now : Nat) : ScanResult :=
  { sr with status := f.final_status, result := f.outcome
            summary := some f.summary, details := f.details
            recommendations := f.recommendations, completed_at := some now }

/-- `run_single_test` on one row after the begin step succeeded: begin,
run the test logic, write the final result. -/
def run_single_test (sr : ScanResult) (test_name url : String) (env : ProbeEnv)
    (now_start now_end : Nat) : ScanResult :=
  tracker_finish (tracker_begin sr now_start) (step2 test_name url env) now_end

/-- `run_single_test` as a DB transition: fetch the row and its test
definition (aborting with no change when either is missing, main.py
lines 147-149), then run the unit against that row. -/
def run_single_test_db (db : DB) (sr_id : Nat) (url : String) (env : ProbeEnv)
    (now_start now_end : Nat) : DB :=
  match getScanResult db sr_id with
  | none => db
  | some sr =>
    match db.test_definitions.find? (fun t => decide (t.id = sr.test_definition_id)) with
    | none => db
    | some td => updateScanResult db sr_id
        (fun r => run_single_test r td.name url env now_start now_end)

/-! ## The coordinator: run_all_tests_for_scan (main.py lines 273-361) -/

/-- The aggregation loop over `scan.results` (main.py lines 342-351),
carrying `all_tests_accounted_for` and breaking at the first result whose
status is ERROR or otherwise not COMPLETED. Returns
`(final_scan_status, all_tests_accounted_for)`. -/
def status_loop : List ScanResult → Bool → TestStatusEnum × Bool
  | [], acc => (.COMPLETED, acc)
  | r :: rs, acc =>
    if r.status = .ERROR then (.ERROR, acc)
    else if ¬ r.status = .COMPLETED then (.ERROR, false)
    else status_loop rs acc

/-- The final aggregation rule (main.py lines 336-354): start from
COMPLETED with `all_tests_accounted_for = (reloaded count = launched
count)`, run the loop, and force ERROR when not all accounted for. -/
def aggregate (results : List ScanResult) (launched : Nat) : TestStatusEnum :=
  let p := status_loop results (decide (results.length = launched))
  if p.2 then p.1 else .ERROR

/-- `run_all_tests_for_scan`: fetch the id list (the environment says via
`fetch_fails` whether that query raised), stop early marking the scan
ERROR on fetch failure or (if still PENDING) COMPLETED on an empty list,
otherwise run one unit per id, join, and write the aggregated status with
`completed_at`. `envs` gives each unit's environment by scan-result id. -/
def run_all_tests_for_scan (db : DB) (scan_id : Nat) (url : String)
    (fetch_fails : Bool) (envs : Nat → ProbeEnv) (now : Nat) : DB :=
  if fetch_fails then
    -- main.py lines 285-296: mark the scan ERROR directly and return
    updateScan db scan_id (fun s => { s with status := .ERROR, completed_at := some now })
  else
    let ids := (resultsOfScan db scan_id).map (fun r => r.id)
    if ids.isEmpty then
      -- main.py lines 298-309: no tests found, mark COMPLETED if still PENDING
      updateScan db scan_id (fun s =>
        if s.status = .PENDING then { s with status := .COMPLETED, completed_at := some now }
        else s)
    else
      -- fan out one unit per id and join (gather); units touch disjoint rows,
      -- so the joined state is the fold of the per-unit transitions
      let db1 := ids.foldl (fun d i => run_single_test_db d i url (envs i) now now) db
      -- main.py lines 326-361: final aggregation step
      match getScan db1 scan_id with
      | none => db1
      | some _ =>
        updateScan db1 scan_id (fun s =>
          { s with status := aggregate (resultsOfScan db1 scan_id) ids.length
                   completed_at := some now })

/-! ## Scan creation: start_scan (main.py lines 379-471) -/

/-- The ScanResult rows created for a new scan, one per catalog entry in
order, with autoincremented ids (main.py lines 423-431). -/
def mkScanResults (scan_id base : Nat) : List TestDefinition → List ScanResult
  | [] => []
  | td :: tds =>
    { id := base, scan_id := scan_id, test_definition_id := td.id
      status := .PENDING, result := .NOT_RUN
      summary := none, details := none, recommendations := none
      started_at := none, completed_at := none } :: mkScanResults scan_id (base + 1) tds

/-- The `POST /scans` transaction: find-or-create the Website, load the
catalog (500 when empty), create the Scan (PENDING) and one PENDING /
NOT_RUN ScanResult per TestDefinition, stamp `website.last_scan_at`.
Returns the committed DB and the new scan id, or the HTTP error code;
`async with db.begin()` rolls the whole transaction back on error. -/
def start_scan (db : DB) (url : String) (now : Nat) : Except Nat (DB × Nat) :=
  let found := db.websites.find? (fun w => decide (w.url = url))
  let website : Website :=
    match found with
    | some w => w
    | none => { id := nextId (db.websites.map (fun w => w.id)), url := url
                created_at := now, last_scan_at := none }
  let websites1 :=
    match found with
    | some _ => db.websites
    | none => db.websites ++ [website]
  if db.test_definitions.isEmpty then
    .error 500
  else
    let sid := nextId (db.scans.map (fun s => s.id))
    let new_scan : Scan :=
      { id := sid, website_id := website.id, status := .PENDING
        created_at := now, completed_at := none }
    let new_results :=
      mkScanResults sid (nextId (db.scan_results.map (fun r => r.id))) db.test_definitions
    let websites2 := websites1.map (fun w =>
      if w.id = website.id then { w with last_scan_at := some now } else w)
    .ok ({ websites := websites2
           test_definitions := db.test_definitions
           scans := db.scans ++ [new_scan]
           scan_results := db.scan_results ++ new_results }, sid)

/-- The store as the caller observes it after the request: the new state
when the transaction committed, the unchanged state when it rolled back;
paired with the HTTP status code (202 Accepted on success). -/
def start_scan_committed (db : DB) (url : String) (now : Nat) : DB × Nat :=
  match start_scan db url now with
  | .ok (db', _) => (db', 202)
  | .error code => (db, code)

/-! ## Catalog seeding: populate_test_definitions (main.py lines 105-130) -/

/-- One iteration of the seeding loop (main.py lines 123-129): look the
name up among the rows visible in the session (earlier inserts of the
same pass included, via autoflush) and insert a fresh row only when the
name is absent. -/
def seedStep (acc : List TestDefinition) (d : String × String) : List TestDefinition :=
  if acc.any (fun t => decide (t.name = d.1)) then acc
  else acc ++ [{ id := nextId (acc.map (fun t => t.id)), name := d.1, description := d.2 }]

/-- One seeding pass over the predefined (name, description) list. -/
def populate_test_definitions (seed : List (String × String))
    (rows : List TestDefinition) : List TestDefinition :=
  seed.foldl seedStep rows

/-- Number of catalog rows carrying a given name. -/
def countName (rows : List TestDefinition) (n : String) : Nat :=
  rows.countP (fun t => decide (t.name = n))

/-! ## The per-result status machine -/

/-- The transitions the spec's state machine allows:
PENDING → IN_PROGRESS → \x7bCOMPLETED, ERROR\x7d. -/
def allowed_transition : TestStatusEnum → TestStatusEnum → Bool
  | .PENDING, .IN_PROGRESS => true
  | .IN_PROGRESS, .COMPLETED => true
  | .IN_PROGRESS, .ERROR => true
  | _, _ => false

/-! ## Helper lemmas -/

/-- Every branch of the HTTPS probe's own exception ladder ends COMPLETED. -/
theorem https_check_completed (url : String) (r : HttpOutcome) :
    (https_check url r).final_status = .COMPLETED := by
  cases r with
  | success code fu =>
    simp only [https_check]
    split
    · rfl
    · split <;> rfl
  | sslError m => rfl
  | timeoutErr => rfl
  | connectionError m => rfl
  | requestError m => rfl

/-- Step 2 always produces a terminal status: COMPLETED or ERROR. -/
theorem step2_terminal (name url : String) (env : ProbeEnv) :
    (step2 name url env).final_status = .COMPLETED ∨
    (step2 name url env).final_status = .ERROR := by
  cases h : env.raises with
  | some e => simp [step2, h]
  | none =>
    simp only [step2, h]
    split
    · exact Or.inl (https_check_completed url env.httpOutcome)
    · exact Or.inl rfl

/-! ## Claim theorems -/

/-- C3 (amended): the HTTPS-enforcement probe realises the decision table,
except that a response carrying a 4xx/5xx status code yields INFO (the
`HTTPError` from `raise_for_status()` lands in the generic
`RequestException` handler) before the final URL's scheme is examined;
for non-error responses, scheme https → PASSED, any other scheme →
VULNERABLE; SSL error → VULNERABLE; timeout, connection error and any
other request-layer error → INFO; every case ends with status COMPLETED. -/
theorem https_probe_decision_table (url fu m : String) (code : Nat) :
    (https_check url (.success code fu)).outcome =
      (if raisesForStatus code then .INFO
       else if urlScheme fu = "https" then .PASSED else .VULNERABLE) ∧
    (https_check url (.success code fu)).final_status = .COMPLETED ∧
    (https_check url (.sslError m)).outcome = .VULNERABLE ∧
    (https_check url (.sslError m)).final_status = .COMPLETED ∧
    (https_check url .timeoutErr).outcome = .INFO ∧
    (https_check url .timeoutErr).final_status = .COMPLETED ∧
    (https_check url (.connectionError m)).outcome = .INFO ∧
    (https_check url (.connectionError m)).final_status = .COMPLETED ∧
    (https_check url (.requestError m)).outcome = .INFO ∧
    (https_check url (.requestError m)).final_status = .COMPLETED := by
  refine ⟨?_, https_check_completed url _, rfl, rfl, rfl, rfl, rfl, rfl, rfl, rfl⟩
  simp only [https_check]
  split
  · simp_all
  · split <;> simp_all

/-- C3 counterexample: a 404 response whose final URL is served over
https yields INFO, not the PASSED the claimed unconditional decision
table row "final URL scheme https → PASSED" requires. -/
theorem https_probe_table_counterexample :
    urlScheme "https://example.com/" = "https" ∧
    (https_check "https://example.com/"
      (.success 404 "https://example.com/")).outcome = .INFO ∧
    ¬ (https_check "https://example.com/"
      (.success 404 "https://example.com/")).outcome = .PASSED := by
  refine ⟨by decide, rfl, by decide⟩

/-- C10: when the GET completes but the response carries a 4xx or 5xx
status code, the probe yields INFO with status COMPLETED regardless of
the final URL's scheme. -/
theorem https_probe_http_error_info (url fu : String) (code : Nat)
    (h4 : 400 ≤ code) (h6 : code < 600) :
    (https_check url (.success code fu)).outcome = .INFO ∧
    (https_check url (.success code fu)).final_status = .COMPLETED := by
  have hr : raisesForStatus code = true := by
    simp only [raisesForStatus, decide_eq_true_eq]
    exact ⟨h4, h6⟩
  simp [https_check, hr]

/-- C10 witness: a 404 over https. -/
theorem https_probe_http_error_info_witness :
    (https_check "u" (.success 404 "https://h/")).outcome = .INFO ∧
    (https_check "u" (.success 404 "https://h/")).final_status = .COMPLETED :=
  https_probe_http_error_info "u" "https://h/" 404 (by decide) (by decide)

/-- C4: when the probe's own test logic raises, the exception is caught
and converted into a final write of status ERROR and outcome NOT_RUN;
the unit is a total function (nothing propagates) and the row does not
stay IN_PROGRESS. -/
theorem probe_failure_contained (sr : ScanResult) (name url : String)
    (env : ProbeEnv) (n1 n2 : Nat) (msg : String) (h : env.raises = some msg) :
    (run_single_test sr name url env n1 n2).status = .ERROR ∧
    (run_single_test sr name url env n1 n2).result = .NOT_RUN ∧
    ¬ (run_single_test sr name url env n1 n2).status = .IN_PROGRESS := by
  simp [run_single_test, tracker_finish, tracker_begin, step2, h]

/-- A sample PENDING scan-result row used by witnesses. -/
def sampleResult : ScanResult :=
  { id := 1, scan_id := 1, test_definition_id := 1
    status := .PENDING, result := .NOT_RUN
    summary := none, details := none, recommendations := none
    started_at := none, completed_at := none }

/-- C4 witness: a concrete raising environment. -/
theorem probe_failure_contained_witness :
    (run_single_test sampleResult "SQL Injection Testing" "u"
      { httpOutcome := .timeoutErr, simSeed := 0, raises := some "boom" } 1 2).status = .ERROR ∧
    (run_single_test sampleResult "SQL Injection Testing" "u"
      { httpOutcome := .timeoutErr, simSeed := 0, raises := some "boom" } 1 2).result = .NOT_RUN ∧
    ¬ (run_single_test sampleResult "SQL Injection Testing" "u"
      { httpOutcome := .timeoutErr, simSeed := 0, raises := some "boom" } 1 2).status = .IN_PROGRESS :=
  probe_failure_contained sampleResult "SQL Injection Testing" "u" _ 1 2 "boom" rfl

/-- C8: starting from PENDING, the begin step assigns exactly
IN_PROGRESS, the finish step assigns a terminal status (COMPLETED or
ERROR), and both steps are transitions the monotonic state machine
PENDING → IN_PROGRESS → \x7bCOMPLETED, ERROR\x7d allows. -/
theorem scan_result_status_monotonic (sr : ScanResult) (name url : String)
    (env : ProbeEnv) (n1 n2 : Nat) (h : sr.status = .PENDING) :
    (tracker_begin sr n1).status = .IN_PROGRESS ∧
    allowed_transition sr.status (tracker_begin sr n1).status = true ∧
    allowed_transition (tracker_begin sr n1).status
      (run_single_test sr name url env n1 n2).status = true ∧
    ((run_single_test sr name url env n1 n2).status = .COMPLETED ∨
     (run_single_test sr name url env n1 n2).status = .ERROR) := by
  have hrun : (run_single_test sr name url env n1 n2).status
      = (step2 name url env).final_status := rfl
  refine ⟨rfl, by rw [h]; rfl, ?_, ?_⟩
  · rw [hrun]
    rcases step2_terminal name url env with h2 | h2 <;> rw [h2] <;> rfl
  · rw [hrun]; exact step2_terminal name url env

/-- C8 witness: the machine on a concrete PENDING row. -/
theorem scan_result_status_monotonic_witness :
    (tracker_begin sampleResult 1).status = .IN_PROGRESS ∧
    allowed_transition sampleResult.status (tracker_begin sampleResult 1).status = true ∧
    allowed_transition (tracker_begin sampleResult 1).status
      (run_single_test sampleResult "Directory Traversal" "u"
        { httpOutcome := .timeoutErr, simSeed := 0, raises := none } 1 2).status = true ∧
    ((run_single_test sampleResult "Directory Traversal" "u"
        { httpOutcome := .timeoutErr, simSeed := 0, raises := none } 1 2).status = .COMPLETED ∨
     (run_single_test sampleResult "Directory Traversal" "u"
        { httpOutcome := .timeoutErr, simSeed := 0, raises := none } 1 2).status = .ERROR) :=
  scan_result_status_monotonic sampleResult "Directory Traversal" "u" _ 1 2 rfl

/-- C6: with an empty test catalog, scan creation fails with HTTP 500 and
the transaction is rolled back, leaving the store unchanged. -/
theorem empty_catalog_rejected (db : DB) (url : String) (now : Nat)
    (h : db.test_definitions = []) :
    start_scan db url now = .error 500 ∧
    start_scan_committed db url now = (db, 500) := by
  have h1 : start_scan db url now = .error 500 := by
    simp [start_scan, h]
  exact ⟨h1, by simp [start_scan_committed, h1]⟩

/-- An empty store used by witnesses. -/
def emptyDB : DB :=
  { websites := [], test_definitions := [], scans := [], scan_results := [] }

/-- C6 witness: creation against the empty catalog. -/
theorem empty_catalog_rejected_witness :
    start_scan emptyDB "http://x/" 3 = .error 500 ∧
    start_scan_committed emptyDB "http://x/" 3 = (emptyDB, 500) :=
  empty_catalog_rejected emptyDB "http://x/" 3 rfl

/-! ## Seeding lemmas (for C9) -/

/-- A name already present survives one seeding step. -/
theorem any_seedStep_mono (acc : List TestDefinition) (d : String × String) (n : String)
    (h : acc.any (fun t => decide (t.name = n)) = true) :
    (seedStep acc d).any (fun t => decide (t.name = n)) = true := by
  unfold seedStep
  split
  · exact h
  · simp [List.any_append, h]

/-- A name already present survives a whole seeding pass. -/
theorem any_populate_mono (seed : List (String × String)) (acc : List TestDefinition)
    (n : String) (h : acc.any (fun t => decide (t.name = n)) = true) :
    (seed.foldl seedStep acc).any (fun t => decide (t.name = n)) = true := by
  induction seed generalizing acc with
  | nil => exact h
  | cons d rest ih => exact ih (seedStep acc d) (any_seedStep_mono acc d n h)

/-- After one seeding step for a pair, its name is present. -/
theorem seedStep_present (acc : List TestDefinition) (d : String × String) :
    (seedStep acc d).any (fun t => decide (t.name = d.1)) = true := by
  unfold seedStep
  split
  · assumption
  · simp [List.any_append]

/-- After a seeding pass, every seeded name is present. -/
theorem populate_present (seed : List (String × String)) (acc : List TestDefinition) :
    ∀ d ∈ seed, (seed.foldl seedStep acc).any (fun t => decide (t.name = d.1)) = true := by
  induction seed generalizing acc with
  | nil => intro d hd; cases hd
  | cons e rest ih =>
    intro d hd
    rcases List.mem_cons.mp hd with h | h
    · subst h
      exact any_populate_mono rest (seedStep acc d) d.1 (seedStep_present acc d)
    · exact ih (seedStep acc e) d h

/-- A seeding pass over rows that already carry every seeded name
inserts nothing. -/
theorem populate_fixed (seed : List (String × String)) (acc : List TestDefinition)
    (h : ∀ d ∈ seed, acc.any (fun t => decide (t.name = d.1)) = true) :
    seed.foldl seedStep acc = acc := by
  induction seed with
  | nil => rfl
  | cons d rest ih =>
    have hstep : seedStep acc d = acc := by
      unfold seedStep
      simp [h d (List.mem_cons_self d rest)]
    rw [List.foldl_cons, hstep]
    exact ih (fun e he => h e (List.mem_cons_of_mem d he))

/-- Presence of a name is the same as a nonzero row count. -/
theorem any_eq_countName (acc : List TestDefinition) (n : String) :
    acc.any (fun t => decide (t.name = n)) = true ↔ ¬ countName acc n = 0 := by
  unfold countName
  rw [List.any_eq_true]
  constructor
  · rintro ⟨t, ht, hp⟩ h0
    exact (List.countP_eq_zero.mp h0 t ht) hp
  · intro h0
    by_contra hne
    push_neg at hne
    exact h0 (List.countP_eq_zero.mpr (fun t ht => by
      intro hp
      exact hne t ht hp))

/-- Row count for a name across one seeding step. -/
theorem countName_seedStep (acc : List TestDefinition) (d : String × String) (n : String) :
    countName (seedStep acc d) n =
      if acc.any (fun t => decide (t.name = d.1)) then countName acc n
      else countName acc n + (if d.1 = n then 1 else 0) := by
  unfold seedStep countName
  split
  · simp_all
  · rw [List.countP_append]
    have h1 : List.countP (fun (t : TestDefinition) => decide (t.name = n))
        [{ id := nextId (List.map (fun t => t.id) acc), name := d.1, description := d.2 }]
        = if d.1 = n then 1 else 0 := by
      by_cases h : d.1 = n <;> simp [List.countP_cons, h]
    rw [h1]

/-- Row count for a name after a whole seeding pass: an absent name ends
with count one exactly when it is seeded, a present name keeps its count. -/
theorem countName_populate (seed : List (String × String)) :
    ∀ (acc : List TestDefinition) (n : String),
    countName (seed.foldl seedStep acc) n =
      if countName acc n = 0 then
        (if seed.any (fun d => decide (d.1 = n)) then 1 else 0)
      else countName acc n := by
  induction seed with
  | nil =>
    intro acc n
    by_cases h : countName acc n = 0 <;> simp [h]
  | cons d rest ih =>
    intro acc n
    rw [List.foldl_cons, ih (seedStep acc d) n]
    by_cases hany : acc.any (fun t => decide (t.name = d.1)) = true
    · have hstep : seedStep acc d = acc := by unfold seedStep; simp [hany]
      rw [hstep]
      by_cases h0 : countName acc n = 0
      · have hd : decide (d.1 = n) = false := by
          by_contra hne
          simp only [decide_eq_false_iff_not, not_not] at hne
          subst hne
          exact ((any_eq_countName acc d.1).mp hany) h0
        rw [if_pos h0, if_pos h0, List.any_cons, hd, Bool.false_or]
      · rw [if_neg h0, if_neg h0]
    · have hcnt := countName_seedStep acc d n
      rw [if_neg hany] at hcnt
      by_cases hd : d.1 = n
      · subst hd
        have h0 : countName acc d.1 = 0 := by
          by_contra h0
          exact hany ((any_eq_countName acc d.1).mpr h0)
        rw [hcnt]
        simp [h0, List.any_cons]
      · rw [hcnt]
        simp only [if_neg hd, Nat.add_zero]
        have hd' : decide (d.1 = n) = false := by simp [hd]
        by_cases h0 : countName acc n = 0
        · rw [if_pos h0, if_pos h0, List.any_cons, hd', Bool.false_or]
        · rw [if_neg h0, if_neg h0]

/-- C9: seeding the catalog is idempotent — a second pass with the same
(name, description) list changes nothing, and a name absent beforehand
ends with exactly one row once seeded. -/
theorem catalog_seeding_idempotent (seed : List (String × String))
    (rows : List TestDefinition) :
    populate_test_definitions seed (populate_test_definitions seed rows)
      = populate_test_definitions seed rows ∧
    ∀ n, countName rows n = 0 → seed.any (fun d => decide (d.1 = n)) = true →
      countName (populate_test_definitions seed rows) n = 1 := by
  constructor
  · exact populate_fixed seed (populate_test_definitions seed rows)
      (fun d hd => populate_present seed rows d hd)
  · intro n h0 hseed
    unfold populate_test_definitions
    rw [countName_populate seed rows n, if_pos h0, if_pos hseed]

/-- C9 witness: seeding twice from an empty table. -/
theorem catalog_seeding_idempotent_witness :
    populate_test_definitions [("Vulnerability Scanning", "d")]
        (populate_test_definitions [("Vulnerability Scanning", "d")] [])
      = populate_test_definitions [("Vulnerability Scanning", "d")] [] ∧
    countName (populate_test_definitions [("Vulnerability Scanning", "d")] [])
      "Vulnerability Scanning" = 1 :=
  ⟨(catalog_seeding_idempotent [("Vulnerability Scanning", "d")] []).1,
   (catalog_seeding_idempotent [("Vulnerability Scanning", "d")] []).2
     "Vulnerability Scanning" (by decide) (by decide)⟩

/-! ## Store lemmas -/

/-- Updating a scan row through an id-preserving function is visible
through `getScan`. -/
theorem getScan_updateScan (db : DB) (sid : Nat) (f : Scan → Scan)
    (hf : ∀ s, (f s).id = s.id) :
    getScan (updateScan db sid f) sid = (getScan db sid).map f := by
  unfold getScan updateScan
  simp only
  rw [List.find?_map]
  have hp : ((fun s => decide (s.id = sid)) ∘ (fun s => if s.id = sid then f s else s))
      = fun s => decide (s.id = sid) := by
    funext s
    by_cases h : s.id = sid <;> simp [h, hf]
  rw [hp]
  cases hfind : db.scans.find? (fun s => decide (s.id = sid)) with
  | none => rfl
  | some s =>
    have hs : s.id = sid := by simpa using List.find?_some hfind
    simp only [Option.map_some']
    rw [if_pos hs]

/-- A probe unit never touches the scans table. -/
theorem scans_run_single_test_db (db : DB) (i : Nat) (url : String)
    (env : ProbeEnv) (n1 n2 : Nat) :
    (run_single_test_db db i url env n1 n2).scans = db.scans := by
  unfold run_single_test_db
  split
  · rfl
  · split <;> rfl

/-- The fan-out of probe units never touches the scans table. -/
theorem scans_foldl_units (ids : List Nat) (db : DB) (url : String)
    (envs : Nat → ProbeEnv) (now : Nat) :
    (ids.foldl (fun d i => run_single_test_db d i url (envs i) now now) db).scans
      = db.scans := by
  induction ids generalizing db with
  | nil => rfl
  | cons i rest ih =>
    rw [List.foldl_cons, ih, scans_run_single_test_db]

/-! ## Claim theorems on the coordinator -/

/-- C7: when the id-list fetch raises, the scan is marked ERROR with
`completed_at` stamped, and no scan-result row is read or modified. -/
theorem fetch_failure_marks_scan_error (db : DB) (sid : Nat) (url : String)
    (envs : Nat → ProbeEnv) (now : Nat) (s : Scan)
    (hs : getScan db sid = some s) :
    (run_all_tests_for_scan db sid url true envs now).scan_results = db.scan_results ∧
    getScan (run_all_tests_for_scan db sid url true envs now) sid
      = some { s with status := .ERROR, completed_at := some now } := by
  constructor
  · rfl
  · show getScan (updateScan db sid
        (fun t => { t with status := .ERROR, completed_at := some now })) sid = _
    rw [getScan_updateScan db sid
      (fun t => { t with status := .ERROR, completed_at := some now })
      (fun t => rfl), hs, Option.map_some']

/-- A store with one PENDING scan and its one PENDING result, used by
witnesses. -/
def sampleDB : DB :=
  { websites := [{ id := 1, url := "http://x/", created_at := 0, last_scan_at := none }]
    test_definitions := [{ id := 1, name := "Directory Traversal", description := "d" }]
    scans := [{ id := 1, website_id := 1, status := .PENDING, created_at := 0, completed_at := none }]
    scan_results := [sampleResult] }

/-- A probe environment where nothing raises, used by witnesses. -/
def envDefault : ProbeEnv := { httpOutcome := .timeoutErr, simSeed := 0, raises := none }

/-- C7 witness: a failing fetch on a concrete store. -/
theorem fetch_failure_marks_scan_error_witness :
    (run_all_tests_for_scan sampleDB 1 "http://x/" true (fun _ => envDefault) 5).scan_results
      = sampleDB.scan_results ∧
    getScan (run_all_tests_for_scan sampleDB 1 "http://x/" true (fun _ => envDefault) 5) 1
      = some { id := 1, website_id := 1, status := .ERROR, created_at := 0, completed_at := some 5 } :=
  fetch_failure_marks_scan_error sampleDB 1 "http://x/" (fun _ => envDefault) 5
    { id := 1, website_id := 1, status := .PENDING, created_at := 0, completed_at := none } rfl

/-- C2 counterexample: a scan whose loaded id list is empty is marked
COMPLETED, not the ERROR the claim states. -/
def dbNoResults : DB :=
  { websites := [], test_definitions := []
    scans := [{ id := 1, website_id := 1, status := .PENDING, created_at := 0, completed_at := none }]
    scan_results := [] }

/-- C2 counterexample: with no ScanResults, the scan ends COMPLETED
(main.py line 307), refuting the claimed ERROR. -/
theorem no_results_marks_completed_counterexample :
    resultsOfScan dbNoResults 1 = [] ∧
    getScan (run_all_tests_for_scan dbNoResults 1 "http://x/" false (fun _ => envDefault) 5) 1
      = some { id := 1, website_id := 1, status := .COMPLETED, created_at := 0, completed_at := some 5 } ∧
    ¬ TestStatusEnum.COMPLETED = TestStatusEnum.ERROR := by
  refine ⟨rfl, rfl, by decide⟩

/-- C2 (amended): with an empty id list, a still-PENDING scan is marked
COMPLETED with `completed_at` stamped, and execution stops without
launching any probe unit (the scan-result table is untouched). -/
theorem no_results_marks_scan_completed (db : DB) (sid : Nat) (url : String)
    (envs : Nat → ProbeEnv) (now : Nat) (s : Scan)
    (hs : getScan db sid = some s) (hp : s.status = .PENDING)
    (he : resultsOfScan db sid = []) :
    (run_all_tests_for_scan db sid url false envs now).scan_results = db.scan_results ∧
    getScan (run_all_tests_for_scan db sid url false envs now) sid
      = some { s with status := .COMPLETED, completed_at := some now } := by
  have hrun : run_all_tests_for_scan db sid url false envs now
      = updateScan db sid (fun t =>
          if t.status = .PENDING then { t with status := .COMPLETED, completed_at := some now }
          else t) := by
    unfold run_all_tests_for_scan
    simp [he]
  constructor
  · rw [hrun]; rfl
  · rw [hrun, getScan_updateScan db sid
      (fun t => if t.status = .PENDING
        then { t with status := .COMPLETED, completed_at := some now } else t)
      (fun t => by
        show (if t.status = .PENDING
          then { t with status := .COMPLETED, completed_at := some now } else t).id = t.id
        split <;> rfl),
      hs, Option.map_some', if_pos hp]

/-- C2 (amended) witness: a concrete store with a PENDING scan and no
results. -/
theorem no_results_marks_scan_completed_witness :
    (run_all_tests_for_scan dbNoResults 1 "http://x/" false (fun _ => envDefault) 5).scan_results
      = dbNoResults.scan_results ∧
    getScan (run_all_tests_for_scan dbNoResults 1 "http://x/" false (fun _ => envDefault) 5) 1
      = some { id := 1, website_id := 1, status := .COMPLETED, created_at := 0, completed_at := some 5 } :=
  no_results_marks_scan_completed dbNoResults 1 "http://x/" (fun _ => envDefault) 5
    { id := 1, website_id := 1, status := .PENDING, created_at := 0, completed_at := none }
    rfl rfl rfl

/-! ## Aggregation lemmas (for C1) -/

/-- The loop-with-break followed by the accounted-for override collapses
to one condition: ERROR when any result is not COMPLETED or the carried
flag is false. -/
theorem status_loop_collapse (rs : List ScanResult) (acc : Bool) :
    (if (status_loop rs acc).2 then (status_loop rs acc).1 else .ERROR)
      = if rs.any (fun r => decide (¬ r.status = .COMPLETED)) || !acc
        then .ERROR else .COMPLETED := by
  induction rs generalizing acc with
  | nil => cases acc <;> simp [status_loop]
  | cons r rest ih =>
    by_cases hr : r.status = .ERROR
    · have hnc : decide (¬ r.status = .COMPLETED) = true := by simp [hr]
      simp only [status_loop, if_pos hr, List.any_cons, hnc, Bool.true_or, if_true]
      cases acc <;> rfl
    · by_cases hc : r.status = .COMPLETED
      · have hnc : decide (¬ r.status = .COMPLETED) = false := by simp [hc]
        simp only [status_loop, if_neg hr, if_neg (not_not_intro hc), List.any_cons, hnc,
          Bool.false_or]
        exact ih acc
      · have hnc : decide (¬ r.status = .COMPLETED) = true := by simp [hc]
        simp only [status_loop, if_neg hr, if_pos hc, List.any_cons, hnc, Bool.true_or, if_true]
        rfl

/-- Disjunct absorption: when `a` forces `b`, prepending `a` to a
disjunction already containing `b` changes nothing. -/
theorem bool_or_absorb (a b x : Bool) (h : a = true → b = true) :
    (b || x) = (a || x || b) := by
  cases a
  · cases b <;> cases x <;> rfl
  · rw [h rfl]
    cases x <;> rfl

/-- The aggregation rule in the claim's three-disjunct form: ERROR when
any result is ERROR, or the reloaded count differs from the launched
count, or any result is otherwise not COMPLETED; COMPLETED otherwise. -/
theorem aggregate_eq (results : List ScanResult) (launched : Nat) :
    aggregate results launched
      = if results.any (fun r => decide (r.status = .ERROR))
           || !decide (results.length = launched)
           || results.any (fun r => decide (¬ r.status = .COMPLETED))
        then .ERROR else .COMPLETED := by
  have hcol := status_loop_collapse results (decide (results.length = launched))
  have himp : results.any (fun r => decide (r.status = .ERROR)) = true →
      results.any (fun r => decide (¬ r.status = .COMPLETED)) = true := by
    intro h
    rw [List.any_eq_true] at h ⊢
    rcases h with ⟨r, hr, hp⟩
    refine ⟨r, hr, ?_⟩
    simp only [decide_eq_true_eq] at hp ⊢
    simp [hp]
  unfold aggregate
  rw [hcol, bool_or_absorb (results.any (fun r => decide (r.status = .ERROR)))
    (results.any (fun r => decide (¬ r.status = .COMPLETED)))
    (!decide (results.length = launched)) himp]

/-- C1: a scan whose background execution reaches the final aggregation
step ends with `completed_at` stamped and status ERROR exactly when some
reloaded result is ERROR, or the reloaded count differs from the number
of launched units, or some reloaded result is otherwise not COMPLETED;
it ends COMPLETED otherwise. -/
theorem scan_aggregation_rule (db : DB) (sid : Nat) (url : String)
    (envs : Nat → ProbeEnv) (now : Nat) (s : Scan)
    (hs : getScan db sid = some s)
    (hne : ¬ resultsOfScan db sid = []) :
    getScan (run_all_tests_for_scan db sid url false envs now) sid
      = some { s with
          status :=
            if (resultsOfScan (run_all_tests_for_scan db sid url false envs now) sid).any
                 (fun r => decide (r.status = .ERROR))
               || !decide ((resultsOfScan (run_all_tests_for_scan db sid url false envs now) sid).length
                     = (resultsOfScan db sid).length)
               || (resultsOfScan (run_all_tests_for_scan db sid url false envs now) sid).any
                 (fun r => decide (¬ r.status = .COMPLETED))
            then .ERROR else .COMPLETED
          completed_at := some now } := by
  have hscans : (List.foldl (fun d i => run_single_test_db d i url (envs i) now now) db
      ((resultsOfScan db sid).map (fun r => r.id))).scans = db.scans :=
    scans_foldl_units _ db url envs now
  have h1 : getScan (List.foldl (fun d i => run_single_test_db d i url (envs i) now now) db
      ((resultsOfScan db sid).map (fun r => r.id))) sid = some s := by
    unfold getScan
    rw [hscans]
    exact hs
  have hempty : ((resultsOfScan db sid).map (fun r => r.id)).isEmpty = false := by
    cases h : resultsOfScan db sid with
    | nil => exact absurd h hne
    | cons a l => rfl
  have hrun : run_all_tests_for_scan db sid url false envs now
      = updateScan (List.foldl (fun d i => run_single_test_db d i url (envs i) now now) db
          ((resultsOfScan db sid).map (fun r => r.id))) sid (fun t => { t with
          status := aggregate
            (resultsOfScan (List.foldl (fun d i => run_single_test_db d i url (envs i) now now) db
              ((resultsOfScan db sid).map (fun r => r.id))) sid)
            ((resultsOfScan db sid).map (fun r => r.id)).length
          completed_at := some now }) := by
    simp only [run_all_tests_for_scan, hempty, Bool.false_eq_true, if_false, h1]
  have hlen : ((resultsOfScan db sid).map (fun r => r.id)).length
      = (resultsOfScan db sid).length := List.length_map _ _
  rw [hrun, getScan_updateScan
      (List.foldl (fun d i => run_single_test_db d i url (envs i) now now) db
        ((resultsOfScan db sid).map (fun r => r.id))) sid
      (fun t => { t with
        status := aggregate
          (resultsOfScan (List.foldl (fun d i => run_single_test_db d i url (envs i) now now) db
            ((resultsOfScan db sid).map (fun r => r.id))) sid)
          ((resultsOfScan db sid).map (fun r => r.id)).length
        completed_at := some now })
      (fun t => rfl), h1, Option.map_some', aggregate_eq, hlen]
  rfl

/-- C1 witness: one scan with one result run to completion on a concrete
store. -/
theorem scan_aggregation_rule_witness :
    getScan (run_all_tests_for_scan sampleDB 1 "http://x/" false (fun _ => envDefault) 5) 1
      = some { id := 1, website_id := 1
               status :=
                 if (resultsOfScan (run_all_tests_for_scan sampleDB 1 "http://x/" false
                       (fun _ => envDefault) 5) 1).any
                      (fun r => decide (r.status = .ERROR))
                    || !decide ((resultsOfScan (run_all_tests_for_scan sampleDB 1 "http://x/" false
                          (fun _ => envDefault) 5) 1).length
                          = (resultsOfScan sampleDB 1).length)
                    || (resultsOfScan (run_all_tests_for_scan sampleDB 1 "http://x/" false
                          (fun _ => envDefault) 5) 1).any
                      (fun r => decide (¬ r.status = .COMPLETED))
                 then TestStatusEnum.ERROR else TestStatusEnum.COMPLETED
               created_at := 0, completed_at := some 5 } :=
  scan_aggregation_rule sampleDB 1 "http://x/" (fun _ => envDefault) 5
    { id := 1, website_id := 1, status := .PENDING, created_at := 0, completed_at := none }
    rfl (by decide)

/-! ## Freshness and creation lemmas (for C5) -/

/-- Every member is bounded by the running maximum. -/
theorem le_foldr_max (l : List Nat) : ∀ x ∈ l, x ≤ l.foldr (fun a b => max a b) 0 := by
  induction l with
  | nil => intro x hx; cases hx
  | cons a rest ih =>
    intro x hx
    rcases List.mem_cons.mp hx with h | h
    · subst h
      exact Nat.le_max_left _ _
    · exact Nat.le_trans (ih x h) (Nat.le_max_right _ _)

/-- The autoincremented id is fresh. -/
theorem nextId_not_mem (l : List Nat) : ¬ nextId l ∈ l := by
  intro h
  have := le_foldr_max l (nextId l) h
  unfold nextId at this
  omega

/-- One ScanResult row is created per catalog entry. -/
theorem mkScanResults_length (sid base : Nat) (tds : List TestDefinition) :
    (mkScanResults sid base tds).length = tds.length := by
  induction tds generalizing base with
  | nil => rfl
  | cons td rest ih => simp [mkScanResults, ih]

/-- Every created row belongs to the new scan and is PENDING / NOT_RUN. -/
theorem mkScanResults_mem (sid base : Nat) (tds : List TestDefinition) :
    ∀ r ∈ mkScanResults sid base tds,
      r.scan_id = sid ∧ r.status = .PENDING ∧ r.result = .NOT_RUN := by
  induction tds generalizing base with
  | nil => intro r hr; cases hr
  | cons td rest ih =>
    intro r hr
    rcases List.mem_cons.mp hr with h | h
    · subst h
      exact ⟨rfl, rfl, rfl⟩
    · exact ih (base + 1) r h

/-- The created rows reference the catalog entries one-for-one, in order. -/
theorem mkScanResults_map_tdid (sid base : Nat) (tds : List TestDefinition) :
    (mkScanResults sid base tds).map (fun r => r.test_definition_id)
      = tds.map (fun t => t.id) := by
  induction tds generalizing base with
  | nil => rfl
  | cons td rest ih => simp [mkScanResults, ih]

/-- Filtering rows of a fresh scan id keeps exactly the new rows. -/
theorem filter_append_fresh (old new : List ScanResult) (sid : Nat)
    (hold : ∀ r ∈ old, ¬ r.scan_id = sid) (hnew : ∀ r ∈ new, r.scan_id = sid) :
    (old ++ new).filter (fun r => decide (r.scan_id = sid)) = new := by
  rw [List.filter_append]
  have h1 : old.filter (fun r => decide (r.scan_id = sid)) = [] := by
    rw [List.filter_eq_nil_iff]
    intro r hr
    simpa using hold r hr
  have h2 : new.filter (fun r => decide (r.scan_id = sid)) = new := by
    rw [List.filter_eq_self]
    intro r hr
    simpa using hnew r hr
  rw [h1, h2, List.nil_append]

/-- Looking a freshly appended scan up by its id finds it. -/
theorem find?_append_fresh (scans : List Scan) (new : Scan)
    (hfresh : ∀ s ∈ scans, ¬ s.id = new.id) :
    (scans ++ [new]).find? (fun s => decide (s.id = new.id)) = some new := by
  rw [List.find?_append]
  have h1 : scans.find? (fun s => decide (s.id = new.id)) = none := by
    rw [List.find?_eq_none]
    intro s hsm
    simpa using hfresh s hsm
  rw [h1, Option.none_or]
  simp [List.find?]

/-- C5: a successful scan-creation against a catalog of N definitions
commits exactly N ScanResult rows for the new scan, one per catalog
entry in order, all PENDING / NOT_RUN, and the new Scan itself PENDING. -/
theorem start_scan_creates_pending_results (db : DB) (url : String) (now : Nat)
    (hcat : ¬ db.test_definitions = [])
    (hfk : ∀ r ∈ db.scan_results, r.scan_id ∈ db.scans.map (fun s => s.id)) :
    ∃ db' sid, start_scan db url now = .ok (db', sid) ∧
      (resultsOfScan db' sid).length = db.test_definitions.length ∧
      (∀ r ∈ resultsOfScan db' sid, r.status = .PENDING ∧ r.result = .NOT_RUN) ∧
      (resultsOfScan db' sid).map (fun r => r.test_definition_id)
        = db.test_definitions.map (fun t => t.id) ∧
      ∃ s, getScan db' sid = some s ∧ s.status = .PENDING := by
  have hisEmpty : db.test_definitions.isEmpty = false := by
    cases h : db.test_definitions with
    | nil => exact absurd h hcat
    | cons a l => rfl
  have hfresh : ¬ nextId (db.scans.map (fun s => s.id)) ∈ db.scans.map (fun s => s.id) :=
    nextId_not_mem _
  have hold : ∀ r ∈ db.scan_results, ¬ r.scan_id = nextId (db.scans.map (fun s => s.id)) := by
    intro r hr heq
    exact hfresh (heq ▸ hfk r hr)
  have hresults : ∀ (W : List Website) (S : List Scan) (T : List TestDefinition),
      resultsOfScan
        { websites := W, test_definitions := T, scans := S
          scan_results := db.scan_results ++ mkScanResults (nextId (db.scans.map (fun s => s.id)))
            (nextId (db.scan_results.map (fun r => r.id))) db.test_definitions }
        (nextId (db.scans.map (fun s => s.id)))
      = mkScanResults (nextId (db.scans.map (fun s => s.id)))
          (nextId (db.scan_results.map (fun r => r.id))) db.test_definitions := by
    intro W S T
    unfold resultsOfScan
    exact filter_append_fresh _ _ _ hold
      (fun r hr => (mkScanResults_mem _ _ db.test_definitions r hr).1)
  unfold start_scan
  simp only [hisEmpty, Bool.false_eq_true, if_false]
  refine ⟨_, _, rfl, ?_, ?_, ?_, ?_⟩
  · rw [hresults]
    rw [mkScanResults_length]
  · rw [hresults]
    intro r hr
    exact (mkScanResults_mem _ _ db.test_definitions r hr).2
  · rw [hresults]
    exact mkScanResults_map_tdid _ _ _
  · unfold getScan
    simp only
    have hfresh2 : ∀ s ∈ db.scans, ¬ s.id = nextId (db.scans.map (fun t => t.id)) := by
      intro s hsm heq
      exact hfresh (heq ▸ List.mem_map_of_mem (fun t => t.id) hsm)
    refine ⟨_, find?_append_fresh db.scans
      { id := nextId (db.scans.map (fun s => s.id))
        website_id := ((match db.websites.find? (fun w => decide (w.url = url)) with
          | some w => w
          | none => { id := nextId (db.websites.map (fun w => w.id)), url := url
                      created_at := now, last_scan_at := none } : Website)).id
        status := .PENDING, created_at := now, completed_at := none }
      hfresh2, rfl⟩

/-- C5 witness: creating a scan on a concrete one-entry catalog. -/
theorem start_scan_creates_pending_results_witness :
    ∃ db' sid, start_scan sampleDB "http://x/" 7 = .ok (db', sid) ∧
      (resultsOfScan db' sid).length = sampleDB.test_definitions.length ∧
      (∀ r ∈ resultsOfScan db' sid, r.status = .PENDING ∧ r.result = .NOT_RUN) ∧
      (resultsOfScan db' sid).map (fun r => r.test_definition_id)
        = sampleDB.test_definitions.map (fun t => t.id) ∧
      ∃ s, getScan db' sid = some s ∧ s.status = .PENDING :=
  start_scan_creates_pending_results sampleDB "http://x/" 7 (by decide) (by decide)

end PenTest
